import Mathlib

/-!
Verification of the terrain-ar placement / gesture subsystem.

The development shallowly embeds:
* the `GestureHandler` class of `src/terrain-ar/gesture-handler.ts`
  (the v4 variant: hit-test single-finger pan/rotate, two-finger
  scale gated by a minimum spread);
* the `terrain-tap-place` lifecycle state machine of the
  rescan-capable variant (loading / scanning / placed, settle
  counter, gesture-engine attach/detach);
* the pure helper `offsetTowardCamera` together with the pose
  computed by `scanning.onTick`.

Screen coordinates, scales and sensitivities are modelled as
rationals.  The square-root based `_spread`, the `atan2` based
`_angle`, the raycast hit test and the camera's projected
forward/right unit vectors are irrational-valued or external
queries; they enter the model as parameters collected in `GHEnv`,
so every theorem quantifies over them.  Rotation commands issued
through `world.transform.rotateSelf` are recorded as the list of
commanded angles (`rotLog`); the quaternion built from an angle is
a fixed function of it, so a target's orientation is unchanged iff
its `rotLog` is unchanged.
-/

namespace GestureHandler

/-- Tuning constants of gesture-handler.ts (v4). -/
def DEPTH_SENSITIVITY : ℚ := 0.005

def HORIZONTAL_SENSITIVITY : ℚ := 0.005

def SCALE_MIN : ℚ := 0.02

def SCALE_MAX : ℚ := 5.0

def MIN_SPREAD : ℚ := 10

def ROTATE_SF_SENSITIVITY : ℚ := 0.008

/-- One entry of `e.touches`: identifier plus clientX/clientY. -/
structure Touch2 where
  id : Int
  x : ℚ
  y : ℚ
  deriving DecidableEq

/-- Single-finger mode: finger landed on the model (`pan`) or off it (`rotate`). -/
inductive SFMode where
  | pan
  | rotate
  deriving DecidableEq

/-- The `sf` session state. -/
structure SFState where
  id : Int
  lastX : ℚ
  lastY : ℚ
  mode : SFMode
  deriving DecidableEq

/-- The `tf` session state. -/
structure TFState where
  idA : Int
  idB : Int
  prevAngle : ℚ
  prevSpread : ℚ
  baseScale : ℚ
  initSpread : ℚ
  deriving DecidableEq

/-- The four touch event types the handler registers listeners for. -/
inductive EvType where
  | start
  | move
  | touchEnd
  | cancel
  deriving DecidableEq

/-- Handler instance state: `active` flag, registered listeners,
single- and two-finger session state. -/
structure GHState where
  active : Bool
  listeners : List EvType
  sf : Option SFState
  tf : Option TFState
  deriving DecidableEq

/-- The placement target as seen through the world accessors:
world position, the log of rotation angles commanded via
`rotateSelf`, and the uniform scale (ECS `Scale.x`). -/
structure Target where
  posX : ℚ
  posY : ℚ
  posZ : ℚ
  rotLog : List ℚ
  scale : ℚ
  deriving DecidableEq

/-- Camera forward and right vectors already projected on the XZ
plane and normalized, as computed in the pan branch. -/
structure Cam where
  fwdX : ℚ
  fwdZ : ℚ
  rightX : ℚ
  rightZ : ℚ
  deriving DecidableEq

/-- External queries of the handler: `_spread` (Euclidean distance,
square-root valued), `_angle` (atan2), `_hitTestModel` and
`_getCamera` with its projected axes.  All theorems hold for every
interpretation of these. -/
structure GHEnv where
  spread : Touch2 → Touch2 → ℚ
  angle : Touch2 → Touch2 → ℚ
  hitTest : ℚ → ℚ → Bool
  cam : Option Cam

/-- Fresh instance: `active = false`, nothing registered, no session. -/
def ghInit : GHState :=
  { active := false, listeners := [], sf := none, tf := none }

/-- `attach()`: early-returns when already active, otherwise sets the
flag and registers the four listeners. -/
def attach (s : GHState) : GHState :=
  if s.active then s
  else
    { s with
      active := true
      listeners := s.listeners ++ [.start, .move, .touchEnd, .cancel] }

/-- `detach()`: clears the flag, removes every registered listener and
clears both session states. -/
def detach (s : GHState) : GHState :=
  { active := false, listeners := [], sf := none, tf := none }

/-- `Math.max(SCALE_MIN, Math.min(SCALE_MAX, v))`. -/
def clampScale (v : ℚ) : ℚ :=
  max SCALE_MIN (min SCALE_MAX v)

/-- `touches.find(t => t.identifier === tid)`. -/
def findTouch (touches : List Touch2) (tid : Int) : Option Touch2 :=
  touches.find? (fun t => t.id == tid)

/-- `touches.find(t => t.identifier === this.tf!.idA) ?? touches[0]`
for a touch list `a :: b :: rest`. -/
def fallbackA (tf : TFState) (a b : Touch2) (rest : List Touch2) : Touch2 :=
  (findTouch (a :: b :: rest) tf.idA).getD a

/-- `touches.find(t => t.identifier === this.tf!.idB) ?? touches[1]`
for a touch list `a :: b :: rest`. -/
def fallbackB (tf : TFState) (a b : Touch2) (rest : List Touch2) : Touch2 :=
  (findTouch (a :: b :: rest) tf.idB).getD b

/-- `_onStart`. -/
def onStart (env : GHEnv) (touches : List Touch2) (s : GHState) (t : Target) :
    GHState × Target :=
  match touches with
  | a :: b :: _ =>
    let s1 : GHState := { s with sf := none }
    if s1.tf.isNone then
      ({ s1 with
         tf := some
           { idA := a.id, idB := b.id, prevAngle := env.angle a b,
             prevSpread := env.spread a b, baseScale := t.scale,
             initSpread := env.spread a b } }, t)
    else (s1, t)
  | [a] =>
    if s.tf.isNone then
      ({ s with
         sf := some
           { id := a.id, lastX := a.x, lastY := a.y,
             mode := if env.hitTest a.x a.y then .pan else .rotate } }, t)
    else (s, t)
  | [] => (s, t)

/-- `_onMove`. -/
def onMove (env : GHEnv) (touches : List Touch2) (s : GHState) (t : Target) :
    GHState × Target :=
  match touches with
  | a0 :: b0 :: rest =>
    match s.tf with
    | some tf =>
      let a := fallbackA tf a0 b0 rest
      let b := fallbackB tf a0 b0 rest
      let currentAngle := env.angle a b
      let currentSpread := env.spread a b
      let t1 : Target :=
        if MIN_SPREAD < currentSpread ∧ MIN_SPREAD < tf.initSpread then
          { t with scale := clampScale (tf.baseScale * (currentSpread / tf.initSpread)) }
        else t
      ({ s with tf := some { tf with prevAngle := currentAngle, prevSpread := currentSpread } },
       t1)
    | none => (s, t)
  | [a0] =>
    match s.sf with
    | some sf =>
      if a0.id = sf.id then
        let dx := a0.x - sf.lastX
        let dy := a0.y - sf.lastY
        let s1 : GHState := { s with sf := some { sf with lastX := a0.x, lastY := a0.y } }
        if |dx| < 0.3 ∧ |dy| < 0.3 then (s1, t)
        else
          match sf.mode with
          | .pan =>
            match env.cam with
            | none => (s1, t)
            | some cam =>
              let depthDelta := -dy * DEPTH_SENSITIVITY
              let horizDelta := dx * HORIZONTAL_SENSITIVITY
              (s1,
               { t with
                 posX := t.posX + cam.fwdX * depthDelta + cam.rightX * horizDelta
                 posY := t.posY
                 posZ := t.posZ + cam.fwdZ * depthDelta + cam.rightZ * horizDelta })
          | .rotate =>
            if 0.3 < |dx| then
              (s1, { t with rotLog := t.rotLog ++ [dx * ROTATE_SF_SENSITIVITY] })
            else (s1, t)
      else (s, t)
    | none => (s, t)
  | [] => (s, t)

/-- `_onEnd` (applied to the remaining touches). -/
def onEnd (env : GHEnv) (touches : List Touch2) (s : GHState) (t : Target) :
    GHState × Target :=
  match touches with
  | [] => ({ s with sf := none, tf := none }, t)
  | [a] =>
    ({ s with
       tf := none
       sf := some
         { id := a.id, lastX := a.x, lastY := a.y,
           mode := if env.hitTest a.x a.y then .pan else .rotate } }, t)
  | _ => (s, t)

/-- `_onCancel`. -/
def onCancel (s : GHState) (t : Target) : GHState × Target :=
  ({ s with sf := none, tf := none }, t)

/-- A delivered touch event: its type and `e.touches`. -/
structure Ev where
  type : EvType
  touches : List Touch2

/-- Invoke the handler registered for one event type. -/
def handle (env : GHEnv) (e : Ev) (st : GHState × Target) : GHState × Target :=
  match e.type with
  | .start => onStart env e.touches st.1 st.2
  | .move => onMove env e.touches st.1 st.2
  | .touchEnd => onEnd env e.touches st.1 st.2
  | .cancel => onCancel st.1 st.2

/-- Event delivery: the handler body runs once per listener
registered for the event's type; with no matching listener the
event is dropped. -/
def dispatch (env : GHEnv) (e : Ev) (st : GHState × Target) : GHState × Target :=
  (st.1.listeners.filter (fun ty => ty == e.type)).foldl
    (fun acc _ => handle env e acc) st

/-- Deliver a sequence of events. -/
def runEvents (env : GHEnv) (evs : List Ev) (st : GHState × Target) :
    GHState × Target :=
  evs.foldl (fun acc e => dispatch env e acc) st

end GestureHandler

namespace TerrainTapPlace

open GestureHandler

/-- Constants of the rescan-capable `terrain-tap-place` component. -/
def SETTLE_FRAMES : ℕ := 20

/-- Lifecycle phases of the `stateMachine`. -/
inductive Phase where
  | loading
  | scanning
  | placed
  deriving DecidableEq

/-- The mutable state captured by the `stateMachine` closure, plus an
accounting ghost `orphanedListeners`: every time the `gestures`
variable is overwritten or nulled, the listeners the dropped engine
still had registered are added to it (they could never be removed
again, so a nonzero value would mean a leaked attached engine). -/
structure LC where
  phase : Phase
  isRescan : Bool
  settleFrames : ℕ
  coverVisible : Bool
  materialsApplied : Bool
  pendingRescan : Bool
  viewing360 : Bool
  absoluteScaleDisabled : Bool
  placedData : Bool
  gestures : Option GHState
  orphanedListeners : ℕ
  deriving DecidableEq

/-- State after construction and `loading.onEnter`. -/
def lcInit : LC :=
  { phase := .loading, isRescan := false, settleFrames := 0,
    coverVisible := false, materialsApplied := false,
    pendingRescan := false, viewing360 := false,
    absoluteScaleDisabled := false, placedData := false,
    gestures := none, orphanedListeners := 0 }

/-- `gestures?.detach()`. -/
def detachCurrent (lc : LC) : LC :=
  { lc with gestures := lc.gestures.map detach }

/-- Dropping the reference (`gestures = null` or overwrite): any
listeners the dropped engine still holds become orphaned. -/
def dropCurrent (lc : LC) : LC :=
  { lc with
    gestures := none
    orphanedListeners :=
      lc.orphanedListeners +
        (match lc.gestures with
         | some g => g.listeners.length
         | none => 0) }

/-- `placed.onEnter`: clear the rescan flag, detach and replace the
gesture engine by a freshly constructed and attached one, mark the
placed data flag (billboard/UI work is external). -/
def placedEnter (lc : LC) : LC :=
  let lc1 := dropCurrent (detachCurrent { lc with isRescan := false })
  { lc1 with gestures := some (attach ghInit), placedData := true }

/-- `startRescan()` followed by the `doRescan` trigger: detach and
null the engine, reset flags, raise the cover, restart the tracking
pipeline (external), then `placed.onExit` (detach/null again) and
`scanning.onEnter`. -/
def startRescan (lc : LC) : LC :=
  let lc1 := dropCurrent (detachCurrent lc)
  let lc2 : LC :=
    { lc1 with
      materialsApplied := false, isRescan := true, coverVisible := true,
      settleFrames := 0, pendingRescan := false }
  let lc3 := dropCurrent (detachCurrent lc2)
  { lc3 with
    phase := .scanning, materialsApplied := false, settleFrames := 0,
    placedData := false }

/-- Per-tick external observations: geometry streamed, a ground
raycast hit produced, terrain object resolvable. -/
structure TickIn where
  modelReady : Bool
  groundHit : Bool
  objPresent : Bool
  deriving DecidableEq

/-- One `onTick` of the current phase (`world` pose writes during
scanning go to the external scene and are modelled separately by
`offsetTowardCamera`). -/
def lcTick (i : TickIn) (lc : LC) : LC :=
  match lc.phase with
  | .loading =>
    if i.modelReady then
      { lc with
        absoluteScaleDisabled := true, phase := .scanning,
        materialsApplied := false, settleFrames := 0, placedData := false }
    else lc
  | .scanning =>
    if i.groundHit then
      let lc1 : LC := { lc with settleFrames := lc.settleFrames + 1 }
      if lc1.isRescan ∧ lc1.settleFrames < SETTLE_FRAMES then lc1
      else
        let lc2 : LC :=
          if ¬ lc1.materialsApplied ∧ i.objPresent then
            { lc1 with materialsApplied := true }
          else lc1
        let lc3 : LC :=
          if lc2.coverVisible then { lc2 with coverVisible := false } else lc2
        placedEnter { lc3 with phase := .placed }
    else lc
  | .placed =>
    if lc.pendingRescan then startRescan lc
    else lc

/-- Externally driven events: a frame tick, the reset button (shown
only while placed and not viewing a panorama), a hotspot tap, and
the panorama viewer closing. -/
inductive LCEvent where
  | tick (i : TickIn)
  | resetPress
  | hotspotTap
  | viewerClosed
  deriving DecidableEq

/-- One step of the lifecycle under an external event. -/
def lcStep (e : LCEvent) (lc : LC) : LC :=
  match e with
  | .tick i => lcTick i lc
  | .resetPress =>
    if lc.phase = .placed ∧ lc.viewing360 = false then startRescan lc else lc
  | .hotspotTap =>
    if lc.phase = .placed ∧ lc.viewing360 = false then
      detachCurrent { lc with viewing360 := true }
    else lc
  | .viewerClosed =>
    if lc.viewing360 then
      { lc with viewing360 := false, pendingRescan := true }
    else lc

/-- Run the machine from its initial state over an event sequence. -/
def runLC (evs : List LCEvent) : LC :=
  evs.foldl (fun lc e => lcStep e lc) lcInit

/-- Fold a list of tick inputs over the machine. -/
def runTicks (L : List TickIn) (lc : LC) : LC :=
  L.foldl (fun s i => lcTick i s) lc

end TerrainTapPlace

namespace SpatialTransform

/-- Placement offset constants at the `scanning.onTick` call site. -/
noncomputable def CAMERA_OFFSET : ℝ := 0.6

noncomputable def Y_ABOVE_GROUND : ℝ := 1.0

/-- `offsetTowardCamera(THREE, hitX, hitZ, camX, camZ, offset)`:
horizontal direction from the hit point toward the camera; if its
squared length is below `0.0001` the hit point is returned
unmodified, otherwise the hit point is shifted `offset` metres
along the normalized direction. -/
noncomputable def offsetTowardCamera (hitX hitZ camX camZ offset : ℝ) : ℝ × ℝ :=
  let dx := camX - hitX
  let dz := camZ - hitZ
  let lengthSq := dx * dx + dz * dz
  if lengthSq < 0.0001 then (hitX, hitZ)
  else
    let len := Real.sqrt lengthSq
    (hitX + dx / len * offset, hitZ + dz / len * offset)

/-- The pose computed by `scanning.onTick`: the horizontal offset
toward the camera paired with `hit.y + Y_ABOVE_GROUND`. -/
noncomputable def scanningPlacementPose (hitX hitY hitZ camX camZ : ℝ) :
    ℝ × ℝ × ℝ :=
  let p := offsetTowardCamera hitX hitZ camX camZ CAMERA_OFFSET
  (p.1, hitY + Y_ABOVE_GROUND, p.2)

end SpatialTransform

namespace AxisLock

/-- Modelled from the spec: the axis-locking two-finger variant of
the Gesture Disambiguation Engine (spec section 4.2, axis-locking
variant, and the section 8 lock-permanence property).  No
gesture-handler version in src/ contains this variant (the present
ones are scale-only or simultaneous rotate+scale), so the step
function below follows the spec's words: while undecided,
accumulate total horizontal midpoint movement and total spread
change; once their sum crosses a fixed lock threshold (18 px),
compare the accumulated magnitudes with a 1.8x dominance quotient
and lock to rotation or scale (re-capturing the scale baseline at
the lock moment), otherwise keep accumulating; once locked the mode
is never changed again. -/
def LOCK_THRESHOLD : ℚ := 18

def DOMINANCE : ℚ := 1.8

/-- Resolved mode of a two-touch episode. -/
inductive TFMode where
  | undecided
  | rotation
  | scaling
  deriving DecidableEq

/-- Modelled from the spec: two-touch session state of the
axis-locking variant. -/
structure LockSt where
  mode : TFMode
  accumMove : ℚ
  accumSpread : ℚ
  baseScale : ℚ
  deriving DecidableEq

/-- Modelled from the spec: one move tick of the axis-locking
variant, fed the horizontal midpoint delta, the spread delta and
the target's current scale. -/
def lockStep (st : LockSt) (midDX spreadD curScale : ℚ) : LockSt :=
  match st.mode with
  | .undecided =>
    let am := st.accumMove + |midDX|
    let asp := st.accumSpread + |spreadD|
    if LOCK_THRESHOLD ≤ am + asp then
      if DOMINANCE * asp ≤ am then
        { st with mode := .rotation, accumMove := am, accumSpread := asp }
      else if DOMINANCE * am ≤ asp then
        { st with mode := .scaling, accumMove := am, accumSpread := asp,
                  baseScale := curScale }
      else { st with accumMove := am, accumSpread := asp }
    else { st with accumMove := am, accumSpread := asp }
  | _ => st

/-- A whole episode tail: fold the per-tick deltas. -/
def runLock (st : LockSt) (L : List (ℚ × ℚ × ℚ)) : LockSt :=
  L.foldl (fun s e => lockStep s e.1 e.2.1 e.2.2) st

end AxisLock

section Fixtures

open GestureHandler TerrainTapPlace

/-- A concrete environment used by the witnesses: any interpretation
of the external queries is admissible. -/
def envW : GHEnv :=
  { spread := fun a b => |a.x - b.x| + |a.y - b.y|
    angle := fun _ _ => 0
    hitTest := fun _ _ => false
    cam := some { fwdX := 0, fwdZ := -1, rightX := 1, rightZ := 0 } }

/-- A concrete two-finger session for the witnesses. -/
def tfW : TFState :=
  { idA := 1, idB := 2, prevAngle := 0, prevSpread := 25,
    baseScale := 1, initSpread := 25 }

/-- A concrete handler state holding `tfW`. -/
def sW : GHState :=
  { active := true, listeners := [.start, .move, .touchEnd, .cancel],
    sf := none, tf := some tfW }

/-- A concrete target for the witnesses. -/
def tW : Target :=
  { posX := 0, posY := 1, posZ := 0, rotLog := [], scale := 1 }

/-- Concrete touches for the witnesses. -/
def touchAW : Touch2 := { id := 1, x := 0, y := 0 }

def touchBW : Touch2 := { id := 2, x := 30, y := 20 }

/-- Touches whose identifiers match no tracked finger. -/
def touchCW : Touch2 := { id := 7, x := 4, y := 4 }

def touchDW : Touch2 := { id := 8, x := 40, y := 24 }

/-- A concrete scanning-entry state right after a rescan was
requested (`scanning.onEnter` with `isRescan` still set). -/
def lcScanW : LC :=
  { phase := .scanning, isRescan := true, settleFrames := 0,
    coverVisible := true, materialsApplied := false,
    pendingRescan := false, viewing360 := false,
    absoluteScaleDisabled := true, placedData := false,
    gestures := none, orphanedListeners := 0 }

/-- A concrete first-placement scanning state. -/
def lcScanFirstW : LC :=
  { phase := .scanning, isRescan := false, settleFrames := 0,
    coverVisible := false, materialsApplied := false,
    pendingRescan := false, viewing360 := false,
    absoluteScaleDisabled := true, placedData := false,
    gestures := none, orphanedListeners := 0 }

/-- A tick that observes a valid ground hit. -/
def hitInW : TickIn := { modelReady := false, groundHit := true, objPresent := true }

/-- A concrete event sequence for the lifecycle witness: load, place
on the first hit, reset, and settle into a second placement. -/
def evsW : List LCEvent :=
  [.tick { modelReady := true, groundHit := false, objPresent := true },
   .tick hitInW, .resetPress, .tick hitInW]

/-- A concrete locked axis-lock session (locked to rotation). -/
def lockStW : AxisLock.LockSt :=
  { mode := .rotation, accumMove := 20, accumSpread := 2, baseScale := 1 }

/-- A concrete episode tail whose spread deltas later dominate. -/
def lockTailW : List (ℚ × ℚ × ℚ) :=
  [(5, 30, 2), (0, 9, 3), (1, 40, 4)]

end Fixtures

section GestureTheorems

open GestureHandler

theorem clampScale_le_and_ge (v : ℚ) :
    SCALE_MIN ≤ clampScale v ∧ clampScale v ≤ SCALE_MAX := by
  refine ⟨le_max_left _ _, max_le ?_ (min_le_left _ _)⟩
  show (0.02 : ℚ) ≤ 5.0
  norm_num

theorem onMove_two_finger (env : GHEnv) (s : GHState) (t : Target)
    (tf : TFState) (a0 b0 : Touch2) (rest : List Touch2)
    (htf : s.tf = some tf) :
    onMove env (a0 :: b0 :: rest) s t =
      ({ s with
         tf := some
           { tf with
             prevAngle := env.angle (fallbackA tf a0 b0 rest) (fallbackB tf a0 b0 rest)
             prevSpread := env.spread (fallbackA tf a0 b0 rest) (fallbackB tf a0 b0 rest) } },
       if MIN_SPREAD < env.spread (fallbackA tf a0 b0 rest) (fallbackB tf a0 b0 rest) ∧
           MIN_SPREAD < tf.initSpread then
         { t with
           scale := clampScale
             (tf.baseScale *
               (env.spread (fallbackA tf a0 b0 rest) (fallbackB tf a0 b0 rest) /
                 tf.initSpread)) }
       else t) := by
  simp only [onMove, htf]

/-- Claim C1: on a two-finger move event, when both the captured
baseline spread and the current spread strictly exceed `MIN_SPREAD`
the target's scale is set to
`clamp(baseScale * currentSpread / initSpread, SCALE_MIN, SCALE_MAX)`,
which always lies inside `[SCALE_MIN, SCALE_MAX]` (the guarded
division is by a value above `MIN_SPREAD > 0`, so the written value
is a well-defined rational — the model counterpart of "never NaN");
when either spread is at or below `MIN_SPREAD` the target is
returned completely unchanged: no scale update is written. -/
theorem C1_two_finger_scale_clamp (env : GHEnv) (s : GHState) (t : Target)
    (tf : TFState) (a0 b0 : Touch2) (rest : List Touch2)
    (htf : s.tf = some tf) :
    (MIN_SPREAD < env.spread (fallbackA tf a0 b0 rest) (fallbackB tf a0 b0 rest) ∧
        MIN_SPREAD < tf.initSpread →
      (onMove env (a0 :: b0 :: rest) s t).2.scale =
          clampScale
            (tf.baseScale *
              (env.spread (fallbackA tf a0 b0 rest) (fallbackB tf a0 b0 rest) /
                tf.initSpread)) ∧
        SCALE_MIN ≤ (onMove env (a0 :: b0 :: rest) s t).2.scale ∧
        (onMove env (a0 :: b0 :: rest) s t).2.scale ≤ SCALE_MAX) ∧
    (¬ (MIN_SPREAD < env.spread (fallbackA tf a0 b0 rest) (fallbackB tf a0 b0 rest) ∧
        MIN_SPREAD < tf.initSpread) →
      (onMove env (a0 :: b0 :: rest) s t).2 = t) := by
  rw [onMove_two_finger env s t tf a0 b0 rest htf]
  constructor
  · intro h
    rw [if_pos h]
    exact ⟨rfl, clampScale_le_and_ge _⟩
  · intro h
    rw [if_neg h]

/-- Witness for C1 at a concrete session and touch pair. -/
theorem C1_witness :
    sW.tf = some tfW ∧
    ((MIN_SPREAD < envW.spread (fallbackA tfW touchAW touchBW []) (fallbackB tfW touchAW touchBW []) ∧
        MIN_SPREAD < tfW.initSpread →
      (onMove envW (touchAW :: touchBW :: []) sW tW).2.scale =
          clampScale
            (tfW.baseScale *
              (envW.spread (fallbackA tfW touchAW touchBW []) (fallbackB tfW touchAW touchBW []) /
                tfW.initSpread)) ∧
        SCALE_MIN ≤ (onMove envW (touchAW :: touchBW :: []) sW tW).2.scale ∧
        (onMove envW (touchAW :: touchBW :: []) sW tW).2.scale ≤ SCALE_MAX) ∧
    (¬ (MIN_SPREAD < envW.spread (fallbackA tfW touchAW touchBW []) (fallbackB tfW touchAW touchBW []) ∧
        MIN_SPREAD < tfW.initSpread) →
      (onMove envW (touchAW :: touchBW :: []) sW tW).2 = tW)) :=
  ⟨rfl, C1_two_finger_scale_clamp envW sW tW tfW touchAW touchBW [] rfl⟩

end GestureTheorems

section MoreGestureTheorems

open GestureHandler

/-- Claim C10: no move event ever changes the target's vertical
coordinate — in particular every single-finger pan/depth move
writes back the previous `y` unchanged, so dragging moves the
object only in the horizontal x-z plane. -/
theorem C10_move_preserves_y (env : GHEnv) (touches : List Touch2)
    (s : GHState) (t : Target) :
    (onMove env touches s t).2.posY = t.posY := by
  rcases touches with _ | ⟨a0, _ | ⟨b0, rest⟩⟩
  · rfl
  · cases hsf : s.sf with
    | none => simp [onMove, hsf]
    | some sf =>
      simp only [onMove, hsf]
      by_cases hid : a0.id = sf.id
      · rw [if_pos hid]
        by_cases hsmall : |a0.x - sf.lastX| < 0.3 ∧ |a0.y - sf.lastY| < 0.3
        · rw [if_pos hsmall]
        · rw [if_neg hsmall]
          cases sf.mode with
          | pan =>
            cases hc : env.cam with
            | none => simp
            | some cam => simp
          | rotate =>
            by_cases hdx : (0.3 : ℚ) < |a0.x - sf.lastX|
            · rw [if_pos hdx]
            · rw [if_neg hdx]
      · rw [if_neg hid]
  · cases htf : s.tf with
    | none => simp [onMove, htf]
    | some tf =>
      simp only [onMove, htf]
      by_cases hsp : MIN_SPREAD < env.spread (fallbackA tf a0 b0 rest) (fallbackB tf a0 b0 rest) ∧
          MIN_SPREAD < tf.initSpread
      · rw [if_pos hsp]
      · rw [if_neg hsp]

theorem dispatch_no_listeners (env : GHEnv) (e : Ev) (st : GHState × Target)
    (h : st.1.listeners = []) : dispatch env e st = st := by
  simp [dispatch, h]

/-- Claim C7: `detach()` leaves no registered listener and clears
both the single- and two-touch session states, and from the
detached state any sequence of subsequently delivered touch events
leaves the target's position, rotation log and scale untouched
(indeed the whole target unchanged) until `attach()` is called
again. -/
theorem C7_detach_inert (env : GHEnv) (s : GHState) (t : Target)
    (evs : List Ev) :
    (detach s).listeners = [] ∧ (detach s).sf = none ∧ (detach s).tf = none ∧
      (runEvents env evs (detach s, t)).2 = t := by
  refine ⟨rfl, rfl, rfl, ?_⟩
  have key : runEvents env evs (detach s, t) = (detach s, t) := by
    induction evs with
    | nil => rfl
    | cons e evs ih =>
      show runEvents env evs (dispatch env e (detach s, t)) = _
      rw [dispatch_no_listeners env e _ rfl]
      exact ih
  rw [key]

theorem attach_attach (s : GHState) : attach (attach s) = attach s := by
  by_cases h : s.active = true <;> simp [attach, h]

/-- Claim C8: `attach()` is idempotent — the guard on the `active`
flag makes any number `n ≥ 1` of consecutive `attach()` calls
produce exactly the state (and in particular exactly the listener
list) of a single call, so no additional listeners are ever
registered. -/
theorem C8_attach_idempotent (s : GHState) (n : ℕ) (hn : 1 ≤ n) :
    attach^[n] s = attach s := by
  obtain ⟨m, rfl⟩ : ∃ m, n = m + 1 := ⟨n - 1, (Nat.succ_pred_eq_of_pos hn).symm⟩
  rw [Function.iterate_succ_apply]
  exact Function.iterate_fixed (attach_attach s) m

/-- Witness for C8: three consecutive attach calls on a fresh engine. -/
theorem C8_witness : 1 ≤ 3 ∧ attach^[3] ghInit = attach ghInit :=
  ⟨by decide, C8_attach_idempotent ghInit 3 (by decide)⟩

theorem getD_find?_mem {α : Type} (l : List α) (p : α → Bool) (a : α)
    (ha : a ∈ l) : ((l.find? p).getD a) ∈ l := by
  cases h : l.find? p with
  | none => simpa using ha
  | some x => simpa using List.mem_of_find?_eq_some h

/-- Claim C9: on a two-finger move event whose touch set no longer
contains a tracked identifier, finger A falls back to the first
touch of the current set and finger B to the second; both selected
touches always belong to the current set, and the handler completes
the whole update as a total function of them — no identifier
mismatch can raise an error. -/
theorem C9_identifier_fallback (env : GHEnv) (s : GHState) (t : Target)
    (tf : TFState) (a0 b0 : Touch2) (rest : List Touch2)
    (htf : s.tf = some tf) :
    (findTouch (a0 :: b0 :: rest) tf.idA = none → fallbackA tf a0 b0 rest = a0) ∧
    (findTouch (a0 :: b0 :: rest) tf.idB = none → fallbackB tf a0 b0 rest = b0) ∧
    fallbackA tf a0 b0 rest ∈ a0 :: b0 :: rest ∧
    fallbackB tf a0 b0 rest ∈ a0 :: b0 :: rest ∧
    onMove env (a0 :: b0 :: rest) s t =
      ({ s with
         tf := some
           { tf with
             prevAngle := env.angle (fallbackA tf a0 b0 rest) (fallbackB tf a0 b0 rest)
             prevSpread := env.spread (fallbackA tf a0 b0 rest) (fallbackB tf a0 b0 rest) } },
       if MIN_SPREAD < env.spread (fallbackA tf a0 b0 rest) (fallbackB tf a0 b0 rest) ∧
           MIN_SPREAD < tf.initSpread then
         { t with
           scale := clampScale
             (tf.baseScale *
               (env.spread (fallbackA tf a0 b0 rest) (fallbackB tf a0 b0 rest) /
                 tf.initSpread)) }
       else t) := by
  refine ⟨?_, ?_, ?_, ?_, onMove_two_finger env s t tf a0 b0 rest htf⟩
  · intro h
    simp [fallbackA, h]
  · intro h
    simp [fallbackB, h]
  · exact getD_find?_mem _ _ _ (by simp)
  · exact getD_find?_mem _ _ _ (by simp)

/-- Witness for C9 at a touch set containing neither tracked id. -/
theorem C9_witness :
    sW.tf = some tfW ∧
    ((findTouch (touchCW :: touchDW :: []) tfW.idA = none →
        fallbackA tfW touchCW touchDW [] = touchCW) ∧
      (findTouch (touchCW :: touchDW :: []) tfW.idB = none →
        fallbackB tfW touchCW touchDW [] = touchDW) ∧
      fallbackA tfW touchCW touchDW [] ∈ touchCW :: touchDW :: [] ∧
      fallbackB tfW touchCW touchDW [] ∈ touchCW :: touchDW :: [] ∧
      onMove envW (touchCW :: touchDW :: []) sW tW =
        ({ sW with
           tf := some
             { tfW with
               prevAngle := envW.angle (fallbackA tfW touchCW touchDW []) (fallbackB tfW touchCW touchDW [])
               prevSpread := envW.spread (fallbackA tfW touchCW touchDW []) (fallbackB tfW touchCW touchDW []) } },
         if MIN_SPREAD < envW.spread (fallbackA tfW touchCW touchDW []) (fallbackB tfW touchCW touchDW []) ∧
             MIN_SPREAD < tfW.initSpread then
           { tW with
             scale := clampScale
               (tfW.baseScale *
                 (envW.spread (fallbackA tfW touchCW touchDW []) (fallbackB tfW touchCW touchDW []) /
                   tfW.initSpread)) }
         else tW)) :=
  ⟨rfl, C9_identifier_fallback envW sW tW tfW touchCW touchDW [] rfl⟩

end MoreGestureTheorems

section AxisLockTheorems

open AxisLock

theorem lockStep_locked (st : LockSt) (a b c : ℚ)
    (h : st.mode ≠ .undecided) : lockStep st a b c = st := by
  cases hm : st.mode with
  | undecided => exact absurd hm h
  | rotation => simp [lockStep, hm]
  | scaling => simp [lockStep, hm]

/-- Claim C3: in the axis-locking two-finger variant, once the mode
is locked (rotation or scale) it never changes for the remainder of
the episode, whatever midpoint-movement and spread deltas the
following move ticks bring — even if the dominant axis reverses.
The variant is modelled from the spec because no gesture-handler
version in src/ contains it. -/
theorem C3_lock_permanent (st : LockSt) (L : List (ℚ × ℚ × ℚ))
    (h : st.mode ≠ .undecided) :
    (runLock st L).mode = st.mode := by
  induction L generalizing st with
  | nil => rfl
  | cons e L ih =>
    show (runLock (lockStep st e.1 e.2.1 e.2.2) L).mode = st.mode
    rw [lockStep_locked st e.1 e.2.1 e.2.2 h]
    exact ih st h

/-- Witness for C3: a rotation-locked session stays rotation-locked
across an episode tail whose spread deltas dominate. -/
theorem C3_witness :
    lockStW.mode ≠ .undecided ∧ (runLock lockStW lockTailW).mode = lockStW.mode :=
  ⟨by decide, C3_lock_permanent lockStW lockTailW (by decide)⟩

end AxisLockTheorems

section TransformTheorems

open SpatialTransform

/-- Claim C5: when the squared length of the horizontal hit-to-viewer
direction is below the `0.0001` guard (length below the `0.01`
epsilon), `offsetTowardCamera` returns the hit point's horizontal
coordinates unmodified; and whenever the guard does not fire, the
normalizing divisor `sqrt(lengthSq)` is strictly positive, so the
shifted coordinates are well-defined real numbers — the model
counterpart of "no NaN and no Infinity component" (a float NaN or
Infinity could only arise from the suppressed division by zero). -/
theorem C5_degenerate_direction_guard (hitX hitZ camX camZ offset : ℝ) :
    ((camX - hitX) * (camX - hitX) + (camZ - hitZ) * (camZ - hitZ) < 0.0001 →
      offsetTowardCamera hitX hitZ camX camZ offset = (hitX, hitZ)) ∧
    (¬ ((camX - hitX) * (camX - hitX) + (camZ - hitZ) * (camZ - hitZ) < 0.0001) →
      0 < Real.sqrt ((camX - hitX) * (camX - hitX) + (camZ - hitZ) * (camZ - hitZ))) := by
  constructor
  · intro h
    rw [offsetTowardCamera, if_pos h]
  · intro h
    have hge : (0.0001 : ℝ) ≤ (camX - hitX) * (camX - hitX) + (camZ - hitZ) * (camZ - hitZ) :=
      not_lt.mp h
    exact Real.sqrt_pos.mpr (by linarith)

/-- Witness for C5: viewer directly above the hit point. -/
theorem C5_witness :
    ((0 : ℝ) - 0) * (0 - 0) + ((0 : ℝ) - 0) * (0 - 0) < 0.0001 ∧
      offsetTowardCamera 0 0 0 0 1 = (0, 0) :=
  ⟨by norm_num, (C5_degenerate_direction_guard 0 0 0 0 1).1 (by norm_num)⟩

/-- Claim C6: when the horizontal hit-to-viewer direction passes the
epsilon guard, the pose computed by `scanning.onTick` is the hit
point shifted by `CAMERA_OFFSET` metres along the normalized
horizontal direction toward the viewer in x and z (the direction
used is exactly unit length), with vertical coordinate
`hit.y + Y_ABOVE_GROUND`. -/
theorem C6_pose_shift (hitX hitY hitZ camX camZ : ℝ)
    (h : ¬ ((camX - hitX) * (camX - hitX) + (camZ - hitZ) * (camZ - hitZ) < 0.0001)) :
    scanningPlacementPose hitX hitY hitZ camX camZ =
      (hitX +
        (camX - hitX) /
          Real.sqrt ((camX - hitX) * (camX - hitX) + (camZ - hitZ) * (camZ - hitZ)) *
          CAMERA_OFFSET,
       hitY + Y_ABOVE_GROUND,
       hitZ +
        (camZ - hitZ) /
          Real.sqrt ((camX - hitX) * (camX - hitX) + (camZ - hitZ) * (camZ - hitZ)) *
          CAMERA_OFFSET) ∧
    ((camX - hitX) /
        Real.sqrt ((camX - hitX) * (camX - hitX) + (camZ - hitZ) * (camZ - hitZ))) ^ 2 +
      ((camZ - hitZ) /
        Real.sqrt ((camX - hitX) * (camX - hitX) + (camZ - hitZ) * (camZ - hitZ))) ^ 2 = 1 := by
  have hge : (0.0001 : ℝ) ≤ (camX - hitX) * (camX - hitX) + (camZ - hitZ) * (camZ - hitZ) :=
    not_lt.mp h
  have hpos : (0 : ℝ) < (camX - hitX) * (camX - hitX) + (camZ - hitZ) * (camZ - hitZ) := by
    linarith
  constructor
  · rw [scanningPlacementPose, offsetTowardCamera]
    rw [if_neg h]
  · have hsq : Real.sqrt ((camX - hitX) * (camX - hitX) + (camZ - hitZ) * (camZ - hitZ)) ^ 2 =
        (camX - hitX) * (camX - hitX) + (camZ - hitZ) * (camZ - hitZ) :=
      Real.sq_sqrt hpos.le
    rw [div_pow, div_pow, hsq, div_add_div_same]
    rw [show (camX - hitX) ^ 2 + (camZ - hitZ) ^ 2 =
        (camX - hitX) * (camX - hitX) + (camZ - hitZ) * (camZ - hitZ) by ring]
    exact div_self hpos.ne'

/-- Witness for C6 at hit point (0,0,0) and viewer at (3,4). -/
theorem C6_witness :
    ¬ (((3 : ℝ) - 0) * (3 - 0) + ((4 : ℝ) - 0) * (4 - 0) < 0.0001) ∧
      (scanningPlacementPose 0 0 0 3 4 =
        (0 + (3 - 0) / Real.sqrt ((3 - 0) * (3 - 0) + (4 - 0) * (4 - 0)) * CAMERA_OFFSET,
         0 + Y_ABOVE_GROUND,
         0 + (4 - 0) / Real.sqrt ((3 - 0) * (3 - 0) + (4 - 0) * (4 - 0)) * CAMERA_OFFSET) ∧
       ((3 - 0) / Real.sqrt (((3 : ℝ) - 0) * (3 - 0) + (4 - 0) * (4 - 0))) ^ 2 +
         ((4 - 0) / Real.sqrt (((3 : ℝ) - 0) * (3 - 0) + (4 - 0) * (4 - 0))) ^ 2 = 1) :=
  ⟨by norm_num, C6_pose_shift 0 0 0 3 4 (by norm_num)⟩

end TransformTheorems

section LifecycleSettleTheorems

open TerrainTapPlace

theorem lcTick_scanning (i : TickIn) (lc : LC) (hp : lc.phase = .scanning) :
    lcTick i lc =
      (if i.groundHit then
        (let lc1 : LC := { lc with settleFrames := lc.settleFrames + 1 }
         if lc1.isRescan ∧ lc1.settleFrames < SETTLE_FRAMES then lc1
         else
           let lc2 : LC :=
             if ¬ lc1.materialsApplied ∧ i.objPresent then
               { lc1 with materialsApplied := true }
             else lc1
           let lc3 : LC :=
             if lc2.coverVisible then { lc2 with coverVisible := false } else lc2
           placedEnter { lc3 with phase := .placed })
      else lc) := by
  unfold lcTick
  rw [hp]

theorem scanTick_early (lc : LC) (i : TickIn) (hp : lc.phase = .scanning)
    (hr : lc.isRescan = true) (hg : i.groundHit = true)
    (hlt : lc.settleFrames + 1 < SETTLE_FRAMES) :
    lcTick i lc = { lc with settleFrames := lc.settleFrames + 1 } := by
  rw [lcTick_scanning i lc hp]
  simp [hg, hr, hlt]

theorem scanTick_place (lc : LC) (i : TickIn) (hp : lc.phase = .scanning)
    (hg : i.groundHit = true)
    (hge : SETTLE_FRAMES ≤ lc.settleFrames + 1 ∨ lc.isRescan = false) :
    (lcTick i lc).phase = .placed := by
  rw [lcTick_scanning i lc hp]
  rw [if_pos hg]
  rw [if_neg]
  · rfl
  · rintro ⟨h1, h2⟩
    have h1' : lc.isRescan = true := h1
    have h2' : lc.settleFrames + 1 < SETTLE_FRAMES := h2
    rcases hge with h | h
    · omega
    · rw [h] at h1'
      exact Bool.false_ne_true h1'

theorem runTicks_early (L : List TickIn) (lc : LC) (hp : lc.phase = .scanning)
    (hr : lc.isRescan = true) (hall : ∀ i ∈ L, i.groundHit = true)
    (hlen : lc.settleFrames + L.length < SETTLE_FRAMES) :
    runTicks L lc = { lc with settleFrames := lc.settleFrames + L.length } := by
  induction L generalizing lc with
  | nil => simp [runTicks]
  | cons i L ih =>
    have hg : i.groundHit = true := hall i (by simp)
    have h1 : lc.settleFrames + 1 < SETTLE_FRAMES := by
      simp only [List.length_cons] at hlen
      omega
    show runTicks L (lcTick i lc) = _
    rw [scanTick_early lc i hp hr hg h1]
    rw [ih { lc with settleFrames := lc.settleFrames + 1 } hp hr
      (fun j hj => hall j (by simp [hj]))
      (by simp only [List.length_cons] at hlen ⊢; omega)]
    congr 1
    simp only [List.length_cons]
    omega

/-- Claim C2: from a scanning entry state with `isRescan = true` and
a zeroed settle counter, any run of fewer than `SETTLE_FRAMES`
consecutive valid ground-hit ticks leaves the machine in Scanning
(the counter tracking exactly the number of hits — in particular
the hit one below the threshold does not yet place), while any run
of exactly `SETTLE_FRAMES` such ticks ends in Placed; and with
`isRescan = false` (first-ever placement) a single valid ground-hit
tick transitions to Placed immediately. -/
theorem C2_settle_threshold (lc : LC) (hp : lc.phase = .scanning) :
    (lc.isRescan = true → lc.settleFrames = 0 →
      (∀ L : List TickIn, (∀ i ∈ L, i.groundHit = true) →
        L.length < SETTLE_FRAMES →
        (runTicks L lc).phase = .scanning ∧
          (runTicks L lc).settleFrames = L.length) ∧
      (∀ L : List TickIn, (∀ i ∈ L, i.groundHit = true) →
        L.length = SETTLE_FRAMES → (runTicks L lc).phase = .placed)) ∧
    (lc.isRescan = false → ∀ i : TickIn, i.groundHit = true →
      (lcTick i lc).phase = .placed) := by
  constructor
  · intro hr hs
    constructor
    · intro L hall hlen
      rw [runTicks_early L lc hp hr hall (by omega)]
      exact ⟨hp, by simp [hs]⟩
    · intro L hall hlen
      have hne : L ≠ [] := by
        intro hL
        rw [hL] at hlen
        simp [SETTLE_FRAMES] at hlen
      obtain ⟨P, i, rfl⟩ : ∃ P i, L = P ++ [i] :=
        ⟨L.dropLast, L.getLast hne, (List.dropLast_append_getLast hne).symm⟩
      have hstep : runTicks (P ++ [i]) lc = lcTick i (runTicks P lc) := by
        simp [runTicks, List.foldl_append]
      have hPlen : P.length + 1 = SETTLE_FRAMES := by
        simpa using hlen
      rw [hstep]
      rw [runTicks_early P lc hp hr (fun j hj => hall j (by simp [hj])) (by omega)]
      refine scanTick_place _ i hp (hall i (by simp)) (Or.inl ?_)
      show SETTLE_FRAMES ≤ lc.settleFrames + P.length + 1
      omega
  · intro hr i hg
    exact scanTick_place lc i hp hg (Or.inr hr)

/-- Witness for C2: from the concrete rescan scanning state, 19 hit
ticks stay in Scanning and 20 hit ticks reach Placed. -/
theorem C2_witness :
    lcScanW.phase = .scanning ∧
      (runTicks (List.replicate 19 hitInW) lcScanW).phase = .scanning ∧
      (runTicks (List.replicate 20 hitInW) lcScanW).phase = .placed := by
  have h := C2_settle_threshold lcScanW rfl
  have hall19 : ∀ i ∈ List.replicate 19 hitInW, i.groundHit = true := by
    intro i hi
    rw [List.eq_of_mem_replicate hi]
    rfl
  have hall20 : ∀ i ∈ List.replicate 20 hitInW, i.groundHit = true := by
    intro i hi
    rw [List.eq_of_mem_replicate hi]
    rfl
  refine ⟨rfl, ?_, ?_⟩
  · exact ((h.1 rfl rfl).1 (List.replicate 19 hitInW) hall19
      (by simp [SETTLE_FRAMES])).1
  · exact (h.1 rfl rfl).2 (List.replicate 20 hitInW) hall20
      (by simp [SETTLE_FRAMES])

end LifecycleSettleTheorems

section LifecycleEngineTheorems

open TerrainTapPlace GestureHandler

theorem lcTick_loading (i : TickIn) (lc : LC) (hp : lc.phase = .loading) :
    lcTick i lc =
      (if i.modelReady then
        { lc with
          absoluteScaleDisabled := true, phase := .scanning,
          materialsApplied := false, settleFrames := 0, placedData := false }
      else lc) := by
  unfold lcTick
  rw [hp]

theorem lcTick_placed (i : TickIn) (lc : LC) (hp : lc.phase = .placed) :
    lcTick i lc = (if lc.pendingRescan then startRescan lc else lc) := by
  unfold lcTick
  rw [hp]

theorem placedEnter_orphaned (lc : LC) :
    (placedEnter lc).orphanedListeners = lc.orphanedListeners := by
  cases hg : lc.gestures <;>
    simp [placedEnter, dropCurrent, detachCurrent, detach, hg]

theorem startRescan_orphaned (lc : LC) :
    (startRescan lc).orphanedListeners = lc.orphanedListeners := by
  cases hg : lc.gestures <;>
    simp [startRescan, dropCurrent, detachCurrent, detach, hg]

theorem loadTick_outcome (lc : LC) (i : TickIn) (hp : lc.phase = .loading) :
    lcTick i lc = lc ∨
      lcTick i lc =
        { lc with
          absoluteScaleDisabled := true, phase := .scanning,
          materialsApplied := false, settleFrames := 0, placedData := false } := by
  rw [lcTick_loading i lc hp]
  by_cases hm : i.modelReady = true
  · rw [if_pos hm]
    right
    rfl
  · rw [if_neg hm]
    left
    rfl

theorem scanTick_outcome (lc : LC) (i : TickIn) (hp : lc.phase = .scanning) :
    lcTick i lc = lc ∨
      lcTick i lc = { lc with settleFrames := lc.settleFrames + 1 } ∨
      ((lcTick i lc).phase = .placed ∧
        (lcTick i lc).gestures = some (attach ghInit) ∧
        (lcTick i lc).orphanedListeners = lc.orphanedListeners) := by
  rw [lcTick_scanning i lc hp]
  by_cases hgr : i.groundHit = true
  · rw [if_pos hgr]
    dsimp only
    by_cases hc : lc.isRescan = true ∧ lc.settleFrames + 1 < SETTLE_FRAMES
    · rw [if_pos hc]
      right
      left
      rfl
    · rw [if_neg hc]
      right
      right
      refine ⟨rfl, rfl, ?_⟩
      rw [placedEnter_orphaned]
      split
      · split <;> rfl
      · split <;> rfl
  · rw [if_neg hgr]
    left
    rfl

theorem placedTick_outcome (lc : LC) (i : TickIn) (hp : lc.phase = .placed) :
    lcTick i lc = lc ∨ lcTick i lc = startRescan lc := by
  rw [lcTick_placed i lc hp]
  by_cases hpr : lc.pendingRescan = true
  · rw [if_pos hpr]
    right
    rfl
  · rw [if_neg hpr]
    left
    rfl

/-- The engine-ownership invariant: no leaked listeners, and outside
Placed the `gestures` reference is cleared. -/
def lcInv (lc : LC) : Prop :=
  lc.orphanedListeners = 0 ∧ (lc.phase ≠ .placed → lc.gestures = none)

theorem lcInv_step (e : LCEvent) (lc : LC) (h : lcInv lc) : lcInv (lcStep e lc) := by
  obtain ⟨ho, hg⟩ := h
  cases e with
  | tick i =>
    show lcInv (lcTick i lc)
    rcases hph : lc.phase with _ | _ | _
    · rcases loadTick_outcome lc i hph with h | h <;> rw [h]
      · exact ⟨ho, hg⟩
      · exact ⟨ho, fun _ => hg (by rw [hph]; exact fun hq => Phase.noConfusion hq)⟩
    · rcases scanTick_outcome lc i hph with h | h | h
      · rw [h]
        exact ⟨ho, hg⟩
      · rw [h]
        exact ⟨ho, fun hne => hg hne⟩
      · exact ⟨h.2.2.trans ho, fun hne => absurd h.1 hne⟩
    · rcases placedTick_outcome lc i hph with h | h <;> rw [h]
      · exact ⟨ho, hg⟩
      · exact ⟨(startRescan_orphaned lc).trans ho, fun _ => rfl⟩
  | resetPress =>
    show lcInv (if lc.phase = .placed ∧ lc.viewing360 = false then startRescan lc else lc)
    by_cases hc : lc.phase = .placed ∧ lc.viewing360 = false
    · rw [if_pos hc]
      exact ⟨(startRescan_orphaned lc).trans ho, fun _ => rfl⟩
    · rw [if_neg hc]
      exact ⟨ho, hg⟩
  | hotspotTap =>
    show lcInv (if lc.phase = .placed ∧ lc.viewing360 = false then
        detachCurrent { lc with viewing360 := true } else lc)
    by_cases hc : lc.phase = .placed ∧ lc.viewing360 = false
    · rw [if_pos hc]
      exact ⟨ho, fun hne => absurd hc.1 hne⟩
    · rw [if_neg hc]
      exact ⟨ho, hg⟩
  | viewerClosed =>
    show lcInv (if lc.viewing360 then
        { lc with viewing360 := false, pendingRescan := true } else lc)
    by_cases hc : lc.viewing360 = true
    · rw [if_pos hc]
      exact ⟨ho, fun hne => hg hne⟩
    · rw [if_neg hc]
      exact ⟨ho, hg⟩

theorem lcInv_foldl (evs : List LCEvent) (lc : LC) (h : lcInv lc) :
    lcInv (evs.foldl (fun lc e => lcStep e lc) lc) := by
  induction evs generalizing lc with
  | nil => exact h
  | cons e evs ih => exact ih (lcStep e lc) (lcInv_step e lc h)

theorem lcInv_run (evs : List LCEvent) : lcInv (runLC evs) :=
  lcInv_foldl evs lcInit ⟨rfl, fun _ => rfl⟩

theorem enter_placed_fresh (lc : LC) (e : LCEvent) (h1 : lc.phase ≠ .placed)
    (h2 : (lcStep e lc).phase = .placed) :
    (lcStep e lc).gestures = some (attach ghInit) := by
  cases e with
  | tick i =>
    show (lcTick i lc).gestures = some (attach ghInit)
    have h2' : (lcTick i lc).phase = .placed := h2
    rcases hph : lc.phase with _ | _ | _
    · rcases loadTick_outcome lc i hph with h | h <;> rw [h] at h2' <;>
        [skip; skip] <;> first
      | (exfalso
         have hq : lc.phase = Phase.placed := h2'
         rw [hph] at hq
         exact Phase.noConfusion hq)
      | exact absurd h2' (by exact fun hq => Phase.noConfusion hq)
    · rcases scanTick_outcome lc i hph with h | h | h
      · rw [h] at h2'
        rw [hph] at h2'
        exact Phase.noConfusion h2'
      · rw [h] at h2'
        have hq : lc.phase = Phase.placed := h2'
        rw [hph] at hq
        exact Phase.noConfusion hq
      · exact h.2.1
    · exact absurd hph h1
  | resetPress =>
    show (if lc.phase = .placed ∧ lc.viewing360 = false then startRescan lc else lc).gestures =
      some (attach ghInit)
    have h2' : (if lc.phase = .placed ∧ lc.viewing360 = false then startRescan lc else lc).phase =
        .placed := h2
    by_cases hc : lc.phase = .placed ∧ lc.viewing360 = false
    · exact absurd hc.1 h1
    · rw [if_neg hc] at h2'
      exact absurd h2' h1
  | hotspotTap =>
    have h2' : (if lc.phase = .placed ∧ lc.viewing360 = false then
        detachCurrent { lc with viewing360 := true } else lc).phase = .placed := h2
    by_cases hc : lc.phase = .placed ∧ lc.viewing360 = false
    · exact absurd hc.1 h1
    · rw [if_neg hc] at h2'
      exact absurd h2' h1
  | viewerClosed =>
    have h2' : (if lc.viewing360 then
        { lc with viewing360 := false, pendingRescan := true } else lc).phase = .placed := h2
    by_cases hc : lc.viewing360 = true
    · rw [if_pos hc] at h2'
      exact absurd (show lc.phase = .placed from h2') h1
    · rw [if_neg hc] at h2'
      exact absurd h2' h1

/-- Claim C4: in every reachable state of the lifecycle, no dropped
engine ever retains a listener (`orphanedListeners = 0`), an active
(attached) engine implies the phase is Placed, outside Placed the
engine reference is cleared; every step that enters Placed installs
exactly the freshly constructed and attached engine, and after any
step that leaves Placed (re-entering Scanning) the engine reference
is cleared; the freshly attached engine is active with exactly the
four touch listeners. -/
theorem C4_engine_attached_only_in_placed (evs : List LCEvent) :
    (runLC evs).orphanedListeners = 0 ∧
    (∀ g, (runLC evs).gestures = some g → g.active = true →
      (runLC evs).phase = .placed) ∧
    ((runLC evs).phase ≠ .placed → (runLC evs).gestures = none) ∧
    (∀ e, (runLC evs).phase ≠ .placed → (lcStep e (runLC evs)).phase = .placed →
      (lcStep e (runLC evs)).gestures = some (attach ghInit)) ∧
    (∀ e, (lcStep e (runLC evs)).phase ≠ .placed →
      (lcStep e (runLC evs)).gestures = none) ∧
    (attach ghInit).active = true ∧
    (attach ghInit).listeners = [.start, .move, .touchEnd, .cancel] := by
  have hinv := lcInv_run evs
  refine ⟨hinv.1, ?_, hinv.2, ?_, ?_, rfl, rfl⟩
  · intro g hsome hact
    by_contra hne
    rw [hinv.2 hne] at hsome
    exact Option.noConfusion hsome
  · intro e h1 h2
    exact enter_placed_fresh (runLC evs) e h1 h2
  · intro e hne
    exact (lcInv_step e (runLC evs) hinv).2 hne

/-- Witness for C4 over a concrete reset cycle. -/
theorem C4_witness :
    (runLC evsW).orphanedListeners = 0 ∧
    (∀ g, (runLC evsW).gestures = some g → g.active = true →
      (runLC evsW).phase = .placed) ∧
    ((runLC evsW).phase ≠ .placed → (runLC evsW).gestures = none) ∧
    (∀ e, (runLC evsW).phase ≠ .placed → (lcStep e (runLC evsW)).phase = .placed →
      (lcStep e (runLC evsW)).gestures = some (attach ghInit)) ∧
    (∀ e, (lcStep e (runLC evsW)).phase ≠ .placed →
      (lcStep e (runLC evsW)).gestures = none) ∧
    (attach ghInit).active = true ∧
    (attach ghInit).listeners = [.start, .move, .touchEnd, .cancel] :=
  C4_engine_attached_only_in_placed evsW

end LifecycleEngineTheorems
